import Mathlib

/-!
Shallow embedding of the frontend of the 2D-to-3D conversion web app.

The app is a Next.js client with three relevant modules:
* `app/page.tsx` — the `Home` component: image upload validation, the
  `/api/convert` call, the automatic `/api/generate-summary` call, and the
  simulated upload-progress counter;
* `components/ChatPanel.tsx` — the chat transcript (`/api/chat`) and the
  PDF report export (`/api/export-report`);
* `components/ModelViewer.tsx` — the Three.js viewer, in particular the
  `PointCloud` component used in point-cloud view mode.

React state is modelled as explicit records; each async handler becomes a
pure function from the current state, its arguments, and the network
responses it awaits, to the new state together with the list of HTTP
requests it issued.  `fetch` outcomes are inputs: an `ok` response with a
parsed body, a non-ok HTTP response, or a rejected promise (network or
parse failure) — the latter two both land in the `catch` block, exactly as
in the source.  JSON bodies are modelled as ordered key/value field lists;
following `JSON.stringify` semantics, an object property whose value is
`undefined` is omitted from the serialized body.
-/

namespace TwoDToThreeD

/-- Browser `File` value as consumed by `handleImageUpload`: `name`, MIME
`type` and `size` in bytes. -/
structure File where
  name : String
  type : String
  size : Nat
deriving Repr, DecidableEq

/-- `Message` from `ChatPanel.tsx`: `role: 'user' | 'assistant'`. -/
inductive Role where
  | user
  | assistant
deriving Repr, DecidableEq

/-- `Message` record from `ChatPanel.tsx`. -/
structure Message where
  role : Role
  content : String
deriving Repr, DecidableEq

/-- JSON values appearing in the request bodies built by the frontend:
strings and arrays of chat messages. -/
inductive JsonVal where
  | str (s : String)
  | msgList (l : List Message)
deriving Repr, DecidableEq

/-- Body of an HTTP request issued by the frontend: either multipart form
data (`FormData` with appended entries) or a JSON object, kept as the
ordered list of fields that `JSON.stringify` serializes. -/
inductive HttpBody where
  | formData (entries : List (String × File))
  | jsonFields (fields : List (String × JsonVal))
deriving Repr, DecidableEq

/-- An HTTP request as issued by `fetch` in the frontend. -/
structure HttpRequest where
  url : String
  method : String
  body : HttpBody
deriving Repr, DecidableEq

/-- `ConvertedModel` interface from `app/page.tsx` (lines 19-26): the JSON
shape parsed from a successful `/api/convert` response.  Optional fields
are `Option`. -/
structure ConvertedModel where
  model_url : String
  depth_map_url : String
  point_cloud_url : Option String
  format : String
  original_image_path : Option String
  unique_name : Option String
deriving Repr, DecidableEq

/-- `ViewMode` union type from `app/page.tsx`:
`'3d-model' | 'textured' | 'point-cloud'`. -/
inductive ViewMode where
  | model3d
  | textured
  | pointCloud
deriving Repr, DecidableEq

/-- The `imageMetadata` state of `Home` (and the optional prop of
`ChatPanel`): `{ uniqueName?: string; originalImagePath?: string }`. -/
structure ImageMetadata where
  uniqueName : Option String
  originalImagePath : Option String
deriving Repr, DecidableEq

/-- The React state of the `Home` component in `app/page.tsx`. -/
structure HomeState where
  uploadedImage : Option File
  imagePreviewUrl : String
  imageName : String
  generatedModel : Option ConvertedModel
  summary : String
  isGeneratingSummary : Bool
  isGeneratingModel : Bool
  viewMode : ViewMode
  dragActive : Bool
  uploadProgress : Nat
  error : String
  imageMetadata : ImageMetadata
deriving Repr, DecidableEq

/-- Initial `Home` state: every `useState` initializer in `app/page.tsx`
(lines 32-46); `imageMetadata` starts as the empty object `{}`. -/
def initialHomeState : HomeState :=
  { uploadedImage := none
    imagePreviewUrl := ""
    imageName := ""
    generatedModel := none
    summary := ""
    isGeneratingSummary := false
    isGeneratingModel := false
    viewMode := ViewMode.model3d
    dragActive := false
    uploadProgress := 0
    error := ""
    imageMetadata := { uniqueName := none, originalImagePath := none } }

/-- Outcome of the awaited `/api/convert` fetch: an ok response whose JSON
body parsed as a `ConvertedModel`, a non-ok HTTP response, or a rejected
fetch (network failure or JSON parse failure). -/
inductive ConvertResponse where
  | ok (data : ConvertedModel)
  | httpError
  | fetchFailure
deriving Repr, DecidableEq

/-- Outcome of the awaited `/api/generate-summary` fetch: an ok response
carrying `data.summary`, or any failure (non-ok status or rejection), which
the source collapses into one catch branch. -/
inductive SummaryResponse where
  | ok (summary : String)
  | failure
deriving Repr, DecidableEq

/-- Character-list prefix test, used to model the JavaScript
`String.prototype.startsWith`. -/
def dataStarts : List Char → List Char → Bool
  | [], _ => true
  | _ :: _, [] => false
  | c :: cs, d :: ds => if c = d then dataStarts cs ds else false

/-- JavaScript `s.startsWith(p)`. -/
def strStartsWith (s p : String) : Bool :=
  dataStarts p.data s.data

/-- JavaScript `s.trim()`: remove leading and trailing whitespace. -/
def jsTrim (s : String) : String :=
  ⟨((s.data.dropWhile Char.isWhitespace).reverse.dropWhile Char.isWhitespace).reverse⟩

/-- `fileName.replace(/\.[^/.]+$/, '')` — strip the final extension: if the
string ends in a dot followed by one or more characters none of which is a
dot or a slash, remove that suffix including the dot; otherwise return the
string unchanged. -/
def stripExt (s : String) : String :=
  let cs := s.data
  let tail := cs.reverse.takeWhile (fun c => c != '.' && c != '/')
  match cs.reverse.drop tail.length with
  | '.' :: _ => if tail.isEmpty then s else ⟨cs.take (cs.length - tail.length - 1)⟩
  | _ => s

/-- The `/api/convert` request: `POST` with a `FormData` body holding the
file under the field name `file` (page.tsx lines 75-92). -/
def convertRequest (f : File) : HttpRequest :=
  { url := "http://localhost:8000/api/convert"
    method := "POST"
    body := HttpBody.formData [("file", f)] }

/-- The `/api/generate-summary` request built by `generateSummary`
(page.tsx lines 121-128): JSON body with `image_name` set to the cleaned
file name and `image_type` set to `general`. -/
def summaryRequest (cleanName : String) : HttpRequest :=
  { url := "http://localhost:8000/api/generate-summary"
    method := "POST"
    body := HttpBody.jsonFields
      [("image_name", JsonVal.str cleanName), ("image_type", JsonVal.str "general")] }

/-- `generateSummary` from `app/page.tsx` (lines 117-142).  It strips the
extension from `fileName`, posts the summary request, stores `data.summary`
on success and a fixed fallback message on any failure; `isGeneratingSummary`
is raised at entry and cleared in `finally`, so it is `false` in the final
state. -/
def generateSummary (st : HomeState) (fileName : String) (resp : SummaryResponse) :
    HomeState × List HttpRequest :=
  let cleanName := stripExt fileName
  match resp with
  | SummaryResponse.ok s =>
      ({ st with isGeneratingSummary := false, summary := s }, [summaryRequest cleanName])
  | SummaryResponse.failure =>
      ({ st with
          isGeneratingSummary := false,
          summary := "Unable to generate summary at this time. You can still use the chat to ask questions!" },
       [summaryRequest cleanName])

/-- `handleImageUpload` from `app/page.tsx` (lines 49-114).  Validation
rejects files whose MIME type does not start with `image/` and files larger
than 10 MB, setting the corresponding error message and returning before
any request.  For a valid file it records the file, the cleaned image name
and the preview URL, posts the convert request, and on an ok response
stores the parsed `ConvertedModel` and awaits `generateSummary`; on any
failure the catch block sets a fixed error and clears the model.  The
`finally` block clears `isGeneratingModel` and resets `uploadProgress` to
0.  The returned list collects every request issued, in order. -/
def handleImageUpload (st : HomeState) (file : File) (previewUrl : String)
    (convResp : ConvertResponse) (sumResp : SummaryResponse) :
    HomeState × List HttpRequest :=
  if strStartsWith file.type "image/" = false then
    ({ st with error := "Please upload a valid image file" }, [])
  else if file.size > 10 * 1024 * 1024 then
    ({ st with error := "File size must be less than 10MB" }, [])
  else
    let st1 := { st with
      error := "",
      uploadedImage := some file,
      imageName := stripExt file.name,
      imagePreviewUrl := previewUrl,
      isGeneratingModel := true,
      uploadProgress := 0 }
    match convResp with
    | ConvertResponse.ok data =>
        let st2 := { st1 with uploadProgress := 100, generatedModel := some data }
        let res := generateSummary st2 file.name sumResp
        ({ res.1 with isGeneratingModel := false, uploadProgress := 0 },
         convertRequest file :: res.2)
    | ConvertResponse.httpError =>
        ({ st1 with
            error := "Failed to generate 3D model. Please try again.",
            generatedModel := none,
            isGeneratingModel := false,
            uploadProgress := 0 },
         [convertRequest file])
    | ConvertResponse.fetchFailure =>
        ({ st1 with
            error := "Failed to generate 3D model. Please try again.",
            generatedModel := none,
            isGeneratingModel := false,
            uploadProgress := 0 },
         [convertRequest file])

/-- `handleReset` from `app/page.tsx` (lines 189-200). -/
def handleReset (st : HomeState) : HomeState :=
  { st with
    uploadedImage := none,
    imagePreviewUrl := "",
    imageName := "",
    generatedModel := none,
    summary := "",
    error := "",
    viewMode := ViewMode.model3d }

/-- User-visible events of the `Home` component: an upload (with its
environment: the preview URL returned by `URL.createObjectURL` and the two
network outcomes), the reset button, the view-mode buttons, and the
drag-state updates of `handleDrag`/`handleDrop`. -/
inductive HomeEvent where
  | upload (f : File) (previewUrl : String) (cr : ConvertResponse) (sr : SummaryResponse)
  | reset
  | selectView (m : ViewMode)
  | setDrag (b : Bool)

/-- One `Home` state transition per event.  No handler in `app/page.tsx`
ever calls `setImageMetadata`. -/
def homeStep (st : HomeState) (e : HomeEvent) : HomeState :=
  match e with
  | HomeEvent.upload f p cr sr => (handleImageUpload st f p cr sr).1
  | HomeEvent.reset => handleReset st
  | HomeEvent.selectView m => { st with viewMode := m }
  | HomeEvent.setDrag b => { st with dragActive := b }

/-- The `Home` state reached after a sequence of events, from the initial
state. -/
def runHome (evs : List HomeEvent) : HomeState :=
  evs.foldl homeStep initialHomeState

/-- One tick of the simulated-progress interval (page.tsx lines 79-87):
`prev >= 90` is capped at 90, otherwise `prev + 10`. -/
def progressTick (prev : Nat) : Nat :=
  if prev ≥ 90 then 90 else prev + 10

/-- Value of `uploadProgress` after `n` interval ticks, starting from the
`setUploadProgress(0)` at the beginning of the request. -/
def progressAfter : Nat → Nat
  | 0 => 0
  | n + 1 => progressTick (progressAfter n)

/-- The values `uploadProgress` takes while the convert request is in
flight: the initial 0 followed by the value after each of the `ticks`
interval firings. -/
def preResponseProgress (ticks : Nat) : List Nat :=
  (List.range (ticks + 1)).map progressAfter

/-- The whole trajectory of `uploadProgress` during one convert call:
the in-flight values, then `setUploadProgress(100)` if and only if the
fetch resolved (ok or not — on a rejected fetch the line is skipped), then
the `setUploadProgress(0)` of the `finally` block. -/
def uploadProgressTrace (ticks : Nat) (responseArrived : Bool) : List Nat :=
  preResponseProgress ticks ++ (if responseArrived then [100] else []) ++ [0]

/-- The React state of `ChatPanel` in `components/ChatPanel.tsx`
(lines 22-25). -/
structure ChatState where
  messages : List Message
  inputMessage : String
  isLoading : Bool
  isExporting : Bool
deriving Repr, DecidableEq

/-- Initial `ChatPanel` state. -/
def initialChatState : ChatState :=
  { messages := [], inputMessage := "", isLoading := false, isExporting := false }

/-- Outcome of the awaited `/api/chat` fetch.  The source parses the JSON
body before checking `response.ok`; an ok response yields `data.response`,
a non-ok response throws with `data.detail`, and a rejected fetch or parse
is `fetchFailure` — the last two both reach the catch block. -/
inductive ChatResponse where
  | ok (response : String)
  | httpError (detail : String)
  | fetchFailure
deriving Repr, DecidableEq

/-- The `/api/chat` request built by `handleSendMessage` (ChatPanel.tsx
lines 44-52): JSON body with `image_name`, the `conversation_history`
already including the new user message, and `user_message`. -/
def chatRequest (imageName : String) (history : List Message) (userMessage : String) :
    HttpRequest :=
  { url := "http://localhost:8000/api/chat"
    method := "POST"
    body := HttpBody.jsonFields
      [("image_name", JsonVal.str imageName),
       ("conversation_history", JsonVal.msgList history),
       ("user_message", JsonVal.str userMessage)] }

/-- `handleSendMessage` from `components/ChatPanel.tsx` (lines 33-70).
It returns immediately when the trimmed input is empty or a chat request
is already loading.  Otherwise it appends the trimmed user message to the
transcript, posts the chat request, and appends the assistant reply on an
ok response or a fixed apologetic assistant message on any failure;
`isLoading` is cleared in `finally` and the input field was cleared at the
start. -/
def handleSendMessage (imageName : String) (st : ChatState) (resp : ChatResponse) :
    ChatState × List HttpRequest :=
  if jsTrim st.inputMessage = "" ∨ st.isLoading = true then
    (st, [])
  else
    let userMessage := jsTrim st.inputMessage
    let newMessages := st.messages ++ [{ role := Role.user, content := userMessage }]
    let req := chatRequest imageName newMessages userMessage
    match resp with
    | ChatResponse.ok r =>
        ({ st with
            inputMessage := "",
            messages := newMessages ++ [{ role := Role.assistant, content := r }],
            isLoading := false },
         [req])
    | ChatResponse.httpError _ =>
        ({ st with
            inputMessage := "",
            messages := newMessages ++
              [{ role := Role.assistant,
                 content := "Sorry, I encountered an error. Please try again." }],
            isLoading := false },
         [req])
    | ChatResponse.fetchFailure =>
        ({ st with
            inputMessage := "",
            messages := newMessages ++
              [{ role := Role.assistant,
                 content := "Sorry, I encountered an error. Please try again." }],
            isLoading := false },
         [req])

/-- `imageName.replace(/\s+/g, '_')` — every maximal run of whitespace
characters becomes a single underscore.  The Bool flag records whether the
previous character was whitespace. -/
def collapseWsAux : Bool → List Char → List Char
  | _, [] => []
  | prevWs, c :: rest =>
    if c.isWhitespace then
      (if prevWs then [] else ['_']) ++ collapseWsAux true rest
    else
      c :: collapseWsAux false rest

/-- String form of `collapseWsAux`, starting outside a whitespace run. -/
def collapseWhitespace (s : String) : String :=
  ⟨collapseWsAux false s.data⟩

/-- The JSON fields of the `/api/export-report` body (ChatPanel.tsx lines
78-84): `image_name`, `summary` and `conversation_history` always, then
`unique_name` and `original_image_path` only when the corresponding
metadata value is present — `JSON.stringify` omits properties whose value
is `undefined`. -/
def exportBodyFields (imageName summaryText : String) (messages : List Message)
    (md : ImageMetadata) : List (String × JsonVal) :=
  [("image_name", JsonVal.str imageName),
   ("summary", JsonVal.str summaryText),
   ("conversation_history", JsonVal.msgList messages)]
  ++ (match md.uniqueName with
      | some u => [("unique_name", JsonVal.str u)]
      | none => [])
  ++ (match md.originalImagePath with
      | some p => [("original_image_path", JsonVal.str p)]
      | none => [])

/-- The `/api/export-report` request. -/
def exportRequest (imageName summaryText : String) (messages : List Message)
    (md : ImageMetadata) : HttpRequest :=
  { url := "http://localhost:8000/api/export-report"
    method := "POST"
    body := HttpBody.jsonFields (exportBodyFields imageName summaryText messages md) }

/-- PDF response bytes, abstracted. -/
abbrev Blob := List Nat

/-- Outcome of the awaited `/api/export-report` fetch: an ok response whose
body is read as a binary blob, a non-ok response, or a rejected fetch. -/
inductive ExportResponse where
  | ok (blob : Blob)
  | httpError
  | fetchFailure

/-- The anchor-click download triggered on a successful export: the blob
offered to the user under the given file name. -/
structure DownloadFile where
  filename : String
  content : Blob
deriving DecidableEq

/-- `handleExportReport` from `components/ChatPanel.tsx` (lines 72-106).
It posts the export request; on an ok response it reads the body as a blob
and offers it as a download named `learning_report_` + the image name with
whitespace runs replaced by underscores + `.pdf`; on any failure it raises
a fixed alert.  `isExporting` is cleared in `finally`.  Result:
(new state, requests issued, download offered, alert raised). -/
def handleExportReport (imageName summaryText : String) (md : ImageMetadata)
    (st : ChatState) (resp : ExportResponse) :
    ChatState × List HttpRequest × Option DownloadFile × Option String :=
  let req := exportRequest imageName summaryText st.messages md
  match resp with
  | ExportResponse.ok blob =>
      ({ st with isExporting := false }, [req],
       some { filename := "learning_report_" ++ collapseWhitespace imageName ++ ".pdf",
              content := blob },
       none)
  | ExportResponse.httpError =>
      ({ st with isExporting := false }, [req], none,
       some "Failed to export report. Please try again.")
  | ExportResponse.fetchFailure =>
      ({ st with isExporting := false }, [req], none,
       some "Failed to export report. Please try again.")

/-- `disabled` attribute of the chat text input (ChatPanel.tsx line 252):
`isLoading || isGeneratingSummary`. -/
def chatInputDisabled (st : ChatState) (isGeneratingSummary : Bool) : Bool :=
  st.isLoading || isGeneratingSummary

/-- `disabled` attribute of the Send button (ChatPanel.tsx line 261):
`!inputMessage.trim() || isLoading || isGeneratingSummary`. -/
def sendButtonDisabled (st : ChatState) (isGeneratingSummary : Bool) : Bool :=
  (jsTrim st.inputMessage == "") || st.isLoading || isGeneratingSummary

/-- `disabled` attribute of the file input (page.tsx line 286):
`isGeneratingModel`. -/
def fileInputDisabled (isGeneratingModel : Bool) : Bool :=
  isGeneratingModel

/-- `disabled` attribute of the Export button (ChatPanel.tsx line 134):
`isExporting || !summary`. -/
def exportButtonDisabled (isExporting : Bool) (summaryText : String) : Bool :=
  isExporting || (summaryText == "")

/-- Export-lifecycle view of the `ChatPanel` UI: the `isExporting` flag,
the number of `/api/export-report` requests currently outstanding, and the
`summary` prop value carried by each request body sent so far (newest
first). -/
structure ExportUIState where
  isExporting : Bool
  pending : Nat
  sentSummaries : List String
deriving Repr, DecidableEq

/-- Export-related transitions of the `ChatPanel` UI.  A click on the
Export button fires `handleExportReport` only while the button is enabled
(DOM semantics: a disabled button receives no click events); the handler
sets `isExporting` before the fetch and a new request becomes outstanding.
When an outstanding request settles, the `finally` block clears
`isExporting`. -/
inductive ExportStep : ExportUIState → ExportUIState → Prop
  | click (s : ExportUIState) (summaryText : String)
      (h : exportButtonDisabled s.isExporting summaryText = false) :
      ExportStep s
        { isExporting := true, pending := s.pending + 1,
          sentSummaries := summaryText :: s.sentSummaries }
  | settle (s : ExportUIState) (h : 0 < s.pending) :
      ExportStep s
        { isExporting := false, pending := s.pending - 1,
          sentSummaries := s.sentSummaries }

/-- Export-UI states reachable from the initial state (no export in
flight, none sent). -/
def ExportReachable (s : ExportUIState) : Prop :=
  Relation.ReflTransGen ExportStep
    { isExporting := false, pending := 0, sentSummaries := [] } s

/-- Stream of `Math.random()` results, in call order; values of actual
runs lie in `[0, 1)`, modelled as rationals. -/
abbrev RandStream := Nat → ℚ

/-- The position and color buffers built for the point cloud
(`Float32Array` contents, modelled exactly as rationals). -/
structure Particles where
  positions : List ℚ
  colors : List ℚ
deriving DecidableEq

/-- `count = 5000` in `PointCloud` (ModelViewer.tsx line 61). -/
def particleCount : Nat := 5000

/-- The particle buffers built in the `useMemo` of `PointCloud`
(ModelViewer.tsx lines 60-77).  Iteration `i` makes six `Math.random()`
calls: three for `positions[3i..3i+2]`, each mapped to
`(random - 0.5) * 5`, then three for `colors[3i..3i+2]`.  Flat index
`j = 3i + k` therefore uses call `6(j/3) + j%3` for positions and
`6(j/3) + 3 + j%3` for colors. -/
def pointCloudParticles (rand : RandStream) : Particles :=
  { positions := (List.range (particleCount * 3)).map
      (fun j => (rand (6 * (j / 3) + j % 3) - 1/2) * 5)
    colors := (List.range (particleCount * 3)).map
      (fun j => rand (6 * (j / 3) + 3 + j % 3)) }

/-- The `PointCloud` component (ModelViewer.tsx lines 48-98): it receives
the `url` prop but builds its particles purely from `Math.random()`; the
source comment reads: For now, create a simple point cloud visualization —
In production, you would load the actual PLY file. -/
def PointCloud (url : String) (rand : RandStream) : Particles :=
  pointCloudParticles rand

/-- JavaScript `a || b` on an optional string: `b` when `a` is `undefined`
or the empty string (both falsy). -/
def jsOrElse (a : Option String) (b : String) : String :=
  match a with
  | some s => if s = "" then b else s
  | none => b

/-- What the viewer canvas renders for each view mode. -/
inductive RenderedScene where
  | glbModel (url : String)
  | depthPlane (url : String)
  | pointsScene (particles : Particles)
deriving DecidableEq

/-- The scene selection of `ModelViewer` (ModelViewer.tsx lines 148-161):
`3d-model` renders the GLB at `modelUrl`, `textured` renders the depth-map
plane, and `point-cloud` renders `PointCloud` with the url prop
`pointCloudUrl || modelUrl`. -/
def ModelViewer (modelUrl depthMapUrl : String) (pointCloudUrl : Option String)
    (viewMode : ViewMode) (rand : RandStream) : RenderedScene :=
  match viewMode with
  | ViewMode.model3d => RenderedScene.glbModel modelUrl
  | ViewMode.textured => RenderedScene.depthPlane depthMapUrl
  | ViewMode.pointCloud =>
      RenderedScene.pointsScene (PointCloud (jsOrElse pointCloudUrl modelUrl) rand)

/-- Sample valid image file for concrete instantiations. -/
def sampleFile : File :=
  { name := "photo.png", type := "image/png", size := 1024 }

/-- Sample parsed `/api/convert` response body. -/
def sampleModel : ConvertedModel :=
  { model_url := "http://localhost:8000/static/models/photo.glb"
    depth_map_url := "http://localhost:8000/static/depth/photo.png"
    point_cloud_url := some "http://localhost:8000/static/pc/photo.ply"
    format := "glb"
    original_image_path := none
    unique_name := none }

/-- Result of `handleImageUpload` on a valid file when the convert fetch
resolves ok and the summary fetch resolves ok. -/
lemma handleImageUpload_ok_okSummary (st : HomeState) (f : File) (p : String)
    (data : ConvertedModel) (s : String)
    (h1 : strStartsWith f.type "image/" = true) (h2 : f.size ≤ 10 * 1024 * 1024) :
    handleImageUpload st f p (ConvertResponse.ok data) (SummaryResponse.ok s) =
      ({ st with
          error := "",
          uploadedImage := some f,
          imageName := stripExt f.name,
          imagePreviewUrl := p,
          isGeneratingModel := false,
          uploadProgress := 0,
          generatedModel := some data,
          isGeneratingSummary := false,
          summary := s },
       [convertRequest f, summaryRequest (stripExt f.name)]) := by
  unfold handleImageUpload
  rw [if_neg (by simp [h1]), if_neg (by omega)]
  rfl

/-- Result of `handleImageUpload` on a valid file when the convert fetch
resolves ok and the summary fetch fails. -/
lemma handleImageUpload_ok_failSummary (st : HomeState) (f : File) (p : String)
    (data : ConvertedModel)
    (h1 : strStartsWith f.type "image/" = true) (h2 : f.size ≤ 10 * 1024 * 1024) :
    handleImageUpload st f p (ConvertResponse.ok data) SummaryResponse.failure =
      ({ st with
          error := "",
          uploadedImage := some f,
          imageName := stripExt f.name,
          imagePreviewUrl := p,
          isGeneratingModel := false,
          uploadProgress := 0,
          generatedModel := some data,
          isGeneratingSummary := false,
          summary := "Unable to generate summary at this time. You can still use the chat to ask questions!" },
       [convertRequest f, summaryRequest (stripExt f.name)]) := by
  unfold handleImageUpload
  rw [if_neg (by simp [h1]), if_neg (by omega)]
  rfl

/-- Result of `handleImageUpload` on a valid file when the convert fetch
returns a non-ok HTTP response. -/
lemma handleImageUpload_httpError (st : HomeState) (f : File) (p : String)
    (sr : SummaryResponse)
    (h1 : strStartsWith f.type "image/" = true) (h2 : f.size ≤ 10 * 1024 * 1024) :
    handleImageUpload st f p ConvertResponse.httpError sr =
      ({ st with
          error := "Failed to generate 3D model. Please try again.",
          uploadedImage := some f,
          imageName := stripExt f.name,
          imagePreviewUrl := p,
          isGeneratingModel := false,
          uploadProgress := 0,
          generatedModel := none },
       [convertRequest f]) := by
  unfold handleImageUpload
  rw [if_neg (by simp [h1]), if_neg (by omega)]

/-- Result of `handleImageUpload` on a valid file when the convert fetch
rejects. -/
lemma handleImageUpload_fetchFailure (st : HomeState) (f : File) (p : String)
    (sr : SummaryResponse)
    (h1 : strStartsWith f.type "image/" = true) (h2 : f.size ≤ 10 * 1024 * 1024) :
    handleImageUpload st f p ConvertResponse.fetchFailure sr =
      ({ st with
          error := "Failed to generate 3D model. Please try again.",
          uploadedImage := some f,
          imageName := stripExt f.name,
          imagePreviewUrl := p,
          isGeneratingModel := false,
          uploadProgress := 0,
          generatedModel := none },
       [convertRequest f]) := by
  unfold handleImageUpload
  rw [if_neg (by simp [h1]), if_neg (by omega)]

/-- Claim C1: for every uploaded image file that passes validation, the
upload handler sends the file as multipart form data in a POST to
`/api/convert`, and on an ok response parses the JSON body as a
`ConvertedModel` (fields `model_url`, `depth_map_url`, optional
`point_cloud_url`) and stores it as the generated model. -/
theorem convert_upload_contract (st : HomeState) (f : File) (p : String)
    (data : ConvertedModel) (sr : SummaryResponse)
    (h1 : strStartsWith f.type "image/" = true) (h2 : f.size ≤ 10 * 1024 * 1024) :
    (handleImageUpload st f p (ConvertResponse.ok data) sr).2.head? =
      some (convertRequest f) ∧
    convertRequest f =
      { url := "http://localhost:8000/api/convert", method := "POST",
        body := HttpBody.formData [("file", f)] } ∧
    (handleImageUpload st f p (ConvertResponse.ok data) sr).1.generatedModel =
      some data := by
  cases sr with
  | ok s =>
      rw [handleImageUpload_ok_okSummary st f p data s h1 h2]
      exact ⟨rfl, rfl, rfl⟩
  | failure =>
      rw [handleImageUpload_ok_failSummary st f p data h1 h2]
      exact ⟨rfl, rfl, rfl⟩

/-- Witness for C1 at a concrete file and response. -/
theorem convert_upload_contract_witness :
    (handleImageUpload initialHomeState sampleFile "blob:preview"
        (ConvertResponse.ok sampleModel) SummaryResponse.failure).2.head? =
      some (convertRequest sampleFile) ∧
    convertRequest sampleFile =
      { url := "http://localhost:8000/api/convert", method := "POST",
        body := HttpBody.formData [("file", sampleFile)] } ∧
    (handleImageUpload initialHomeState sampleFile "blob:preview"
        (ConvertResponse.ok sampleModel) SummaryResponse.failure).1.generatedModel =
      some sampleModel :=
  convert_upload_contract initialHomeState sampleFile "blob:preview" sampleModel
    SummaryResponse.failure (by decide) (by decide)

/-- Claim C2: for every non-empty trimmed chat input sent while no request
is outstanding, `handleSendMessage` POSTs to `/api/chat` a JSON body with
the image name, the conversation history including the new user message,
and the user message; on an ok response the new transcript is the old one
with exactly the user message and the assistant reply appended, in that
order. -/
theorem chat_transcript_append (iN : String) (st : ChatState) (r : String)
    (h1 : jsTrim st.inputMessage ≠ "") (h2 : st.isLoading = false) :
    (handleSendMessage iN st (ChatResponse.ok r)).2 =
      [chatRequest iN
        (st.messages ++ [{ role := Role.user, content := jsTrim st.inputMessage }])
        (jsTrim st.inputMessage)] ∧
    chatRequest iN
        (st.messages ++ [{ role := Role.user, content := jsTrim st.inputMessage }])
        (jsTrim st.inputMessage) =
      { url := "http://localhost:8000/api/chat", method := "POST",
        body := HttpBody.jsonFields
          [("image_name", JsonVal.str iN),
           ("conversation_history", JsonVal.msgList
              (st.messages ++ [{ role := Role.user, content := jsTrim st.inputMessage }])),
           ("user_message", JsonVal.str (jsTrim st.inputMessage))] } ∧
    (handleSendMessage iN st (ChatResponse.ok r)).1.messages =
      st.messages ++
        [{ role := Role.user, content := jsTrim st.inputMessage },
         { role := Role.assistant, content := r }] := by
  unfold handleSendMessage
  rw [if_neg (by simp [h1, h2])]
  exact ⟨rfl, rfl, by simp⟩

/-- Witness for C2 at a concrete panel state and reply. -/
theorem chat_transcript_append_witness :
    (handleSendMessage "photo" { initialChatState with inputMessage := "What is this" }
        (ChatResponse.ok "A sample reply")).2 =
      [chatRequest "photo" [{ role := Role.user, content := "What is this" }] "What is this"] ∧
    chatRequest "photo" [{ role := Role.user, content := "What is this" }] "What is this" =
      { url := "http://localhost:8000/api/chat", method := "POST",
        body := HttpBody.jsonFields
          [("image_name", JsonVal.str "photo"),
           ("conversation_history", JsonVal.msgList
              [{ role := Role.user, content := "What is this" }]),
           ("user_message", JsonVal.str "What is this")] } ∧
    (handleSendMessage "photo" { initialChatState with inputMessage := "What is this" }
        (ChatResponse.ok "A sample reply")).1.messages =
      [{ role := Role.user, content := "What is this" },
       { role := Role.assistant, content := "A sample reply" }] :=
  chat_transcript_append "photo" { initialChatState with inputMessage := "What is this" }
    "A sample reply" (by decide) (by decide)

/-- Claim C8: a file whose MIME type does not start with `image/`, or whose
size exceeds 10485760 bytes, makes `handleImageUpload` set the specific
validation error message and return with no network request and every
other state field unchanged. -/
theorem upload_validation_rejects (st : HomeState) (f : File) (p : String)
    (cr : ConvertResponse) (sr : SummaryResponse) :
    (strStartsWith f.type "image/" = false →
      handleImageUpload st f p cr sr =
        ({ st with error := "Please upload a valid image file" }, [])) ∧
    (strStartsWith f.type "image/" = true → f.size > 10 * 1024 * 1024 →
      handleImageUpload st f p cr sr =
        ({ st with error := "File size must be less than 10MB" }, [])) := by
  constructor
  · intro h
    unfold handleImageUpload
    rw [if_pos h]
  · intro h1 h2
    unfold handleImageUpload
    rw [if_neg (by simp [h1]), if_pos h2]

/-- Witness for C8: a text file is rejected for its type, an oversized
image for its size, both without any request. -/
theorem upload_validation_rejects_witness :
    handleImageUpload initialHomeState { name := "notes.txt", type := "text/plain", size := 5 }
        "" ConvertResponse.httpError SummaryResponse.failure =
      ({ initialHomeState with error := "Please upload a valid image file" }, []) ∧
    handleImageUpload initialHomeState
        { name := "big.png", type := "image/png", size := 10485761 }
        "" ConvertResponse.httpError SummaryResponse.failure =
      ({ initialHomeState with error := "File size must be less than 10MB" }, []) :=
  ⟨(upload_validation_rejects initialHomeState
      { name := "notes.txt", type := "text/plain", size := 5 } ""
      ConvertResponse.httpError SummaryResponse.failure).1 (by decide),
   (upload_validation_rejects initialHomeState
      { name := "big.png", type := "image/png", size := 10485761 } ""
      ConvertResponse.httpError SummaryResponse.failure).2 (by decide) (by decide)⟩

/-- No `Home` handler changes `imageMetadata`: `setImageMetadata` is never
called in `app/page.tsx`. -/
lemma homeStep_imageMetadata (st : HomeState) (e : HomeEvent) :
    (homeStep st e).imageMetadata = st.imageMetadata := by
  cases e with
  | upload f p cr sr =>
      show (handleImageUpload st f p cr sr).1.imageMetadata = st.imageMetadata
      unfold handleImageUpload
      split
      · rfl
      · split
        · rfl
        · cases cr with
          | ok data => cases sr <;> rfl
          | httpError => rfl
          | fetchFailure => rfl
  | reset => rfl
  | selectView m => rfl
  | setDrag b => rfl

/-- `imageMetadata` is invariant under any event sequence. -/
lemma foldl_homeStep_imageMetadata (evs : List HomeEvent) (st : HomeState) :
    (evs.foldl homeStep st).imageMetadata = st.imageMetadata := by
  induction evs generalizing st with
  | nil => rfl
  | cons e rest ih => rw [List.foldl_cons, ih, homeStep_imageMetadata]

/-- In every reachable `Home` state the metadata is still the empty
object, so both optional export-body fields are absent. -/
lemma runHome_imageMetadata (evs : List HomeEvent) :
    (runHome evs).imageMetadata = { uniqueName := none, originalImagePath := none } := by
  rw [runHome, foldl_homeStep_imageMetadata]
  rfl

/-- Claim C4: in this app the metadata passed to `ChatPanel` is always the
empty object, so the serialized export body consists of exactly
`image_name`, `summary` and `conversation_history`; on an ok response the
body blob is offered as a download named from the image name. -/
theorem export_report_body_and_download :
    (∀ evs : List HomeEvent, (runHome evs).imageMetadata =
        { uniqueName := none, originalImagePath := none }) ∧
    (∀ (iN sm : String) (msgs : List Message),
        exportBodyFields iN sm msgs { uniqueName := none, originalImagePath := none } =
          [("image_name", JsonVal.str iN),
           ("summary", JsonVal.str sm),
           ("conversation_history", JsonVal.msgList msgs)]) ∧
    (∀ (iN sm : String) (md : ImageMetadata) (st : ChatState) (blob : Blob),
        handleExportReport iN sm md st (ExportResponse.ok blob) =
          ({ st with isExporting := false },
           [exportRequest iN sm st.messages md],
           some { filename := "learning_report_" ++ collapseWhitespace iN ++ ".pdf",
                  content := blob },
           none)) :=
  ⟨runHome_imageMetadata, fun _ _ _ => rfl, fun _ _ _ _ _ => rfl⟩

/-- Claim C3 (code bug): in point-cloud view mode the rendered scene is
independent of every URL passed to the viewer — `PointCloud` builds its
particles purely from `Math.random()` and never loads the PLY file, as its
own source comment admits. -/
theorem pointcloud_scene_ignores_url (m1 d1 m2 d2 : String)
    (p1 p2 : Option String) (rand : RandStream) :
    ModelViewer m1 d1 p1 ViewMode.pointCloud rand =
      ModelViewer m2 d2 p2 ViewMode.pointCloud rand := rfl

/-- Claim C6: while a network call is outstanding the corresponding input
is disabled and `handleSendMessage` returns immediately when a chat
request is in flight, so a second request of the same kind cannot start
before the first finishes. -/
theorem inputs_disabled_while_loading :
    (∀ (iN : String) (st : ChatState) (resp : ChatResponse),
        st.isLoading = true → handleSendMessage iN st resp = (st, [])) ∧
    (∀ (st : ChatState) (g : Bool),
        st.isLoading = true → chatInputDisabled st g = true) ∧
    (∀ (st : ChatState) (g : Bool), g = true → chatInputDisabled st g = true) ∧
    (∀ (st : ChatState) (g : Bool),
        st.isLoading = true → sendButtonDisabled st g = true) ∧
    (∀ (st : ChatState) (g : Bool), g = true → sendButtonDisabled st g = true) ∧
    (∀ b : Bool, fileInputDisabled b = b) := by
  refine ⟨?_, ?_, ?_, ?_, ?_, fun b => rfl⟩
  · intro iN st resp h
    unfold handleSendMessage
    rw [if_pos (Or.inr h)]
  · intro st g h
    simp [chatInputDisabled, h]
  · intro st g h
    simp [chatInputDisabled, h]
  · intro st g h
    simp [sendButtonDisabled, h]
  · intro st g h
    simp [sendButtonDisabled, h]

/-- Witness for C6 at a concrete loading state. -/
theorem inputs_disabled_while_loading_witness :
    handleSendMessage "photo" { initialChatState with isLoading := true }
        ChatResponse.fetchFailure =
      ({ initialChatState with isLoading := true }, []) ∧
    chatInputDisabled { initialChatState with isLoading := true } false = true ∧
    chatInputDisabled initialChatState true = true ∧
    sendButtonDisabled { initialChatState with isLoading := true } false = true ∧
    sendButtonDisabled initialChatState true = true ∧
    fileInputDisabled true = true :=
  ⟨inputs_disabled_while_loading.1 "photo" { initialChatState with isLoading := true }
      ChatResponse.fetchFailure rfl,
   inputs_disabled_while_loading.2.1 { initialChatState with isLoading := true } false rfl,
   inputs_disabled_while_loading.2.2.1 initialChatState true rfl,
   inputs_disabled_while_loading.2.2.2.1 { initialChatState with isLoading := true } false rfl,
   inputs_disabled_while_loading.2.2.2.2.1 initialChatState true rfl,
   inputs_disabled_while_loading.2.2.2.2.2 true⟩

/-- Claim C7: the summary call happens only after a successful convert:
on an ok convert response the request trace is exactly the convert request
followed by the summary request whose `image_name` is the file name with
its final extension removed; on a failed convert no summary request is
made; on a successful summary response the summary text is stored. -/
theorem summary_only_after_convert (st : HomeState) (f : File) (p : String)
    (h1 : strStartsWith f.type "image/" = true) (h2 : f.size ≤ 10 * 1024 * 1024) :
    (∀ (data : ConvertedModel) (sr : SummaryResponse),
        (handleImageUpload st f p (ConvertResponse.ok data) sr).2 =
          [convertRequest f, summaryRequest (stripExt f.name)]) ∧
    (∀ cleanName, summaryRequest cleanName =
        { url := "http://localhost:8000/api/generate-summary", method := "POST",
          body := HttpBody.jsonFields
            [("image_name", JsonVal.str cleanName),
             ("image_type", JsonVal.str "general")] }) ∧
    (∀ sr, (handleImageUpload st f p ConvertResponse.httpError sr).2 =
        [convertRequest f]) ∧
    (∀ sr, (handleImageUpload st f p ConvertResponse.fetchFailure sr).2 =
        [convertRequest f]) ∧
    (∀ (data : ConvertedModel) (s : String),
        (handleImageUpload st f p (ConvertResponse.ok data)
            (SummaryResponse.ok s)).1.summary = s) := by
  refine ⟨?_, fun _ => rfl, ?_, ?_, ?_⟩
  · intro data sr
    cases sr with
    | ok s => rw [handleImageUpload_ok_okSummary st f p data s h1 h2]
    | failure => rw [handleImageUpload_ok_failSummary st f p data h1 h2]
  · intro sr
    rw [handleImageUpload_httpError st f p sr h1 h2]
  · intro sr
    rw [handleImageUpload_fetchFailure st f p sr h1 h2]
  · intro data s
    rw [handleImageUpload_ok_okSummary st f p data s h1 h2]

/-- Witness for C7 at a concrete file: the summary request follows the
convert request and carries the extension-stripped name. -/
theorem summary_only_after_convert_witness :
    (handleImageUpload initialHomeState sampleFile "blob:preview"
        (ConvertResponse.ok sampleModel) (SummaryResponse.ok "A short summary")).2 =
      [convertRequest sampleFile, summaryRequest (stripExt sampleFile.name)] ∧
    (handleImageUpload initialHomeState sampleFile "blob:preview"
        ConvertResponse.httpError (SummaryResponse.ok "A short summary")).2 =
      [convertRequest sampleFile] ∧
    (handleImageUpload initialHomeState sampleFile "blob:preview"
        (ConvertResponse.ok sampleModel) (SummaryResponse.ok "A short summary")).1.summary =
      "A short summary" :=
  ⟨(summary_only_after_convert initialHomeState sampleFile "blob:preview"
      (by decide) (by decide)).1 sampleModel (SummaryResponse.ok "A short summary"),
   (summary_only_after_convert initialHomeState sampleFile "blob:preview"
      (by decide) (by decide)).2.2.1 (SummaryResponse.ok "A short summary"),
   (summary_only_after_convert initialHomeState sampleFile "blob:preview"
      (by decide) (by decide)).2.2.2.2 sampleModel "A short summary"⟩

/-- Claim C5: every failing backend call is caught and surfaced as one
fixed generic message, with exactly one request issued (no retry): a
failed convert sets the fixed error string and clears the model, a failed
chat appends the fixed apologetic assistant message, and a failed export
raises the fixed alert with no download. -/
theorem generic_error_handling (st : HomeState) (f : File) (p : String)
    (sr : SummaryResponse) (cst : ChatState) (iN sm d : String) (md : ImageMetadata)
    (h1 : strStartsWith f.type "image/" = true) (h2 : f.size ≤ 10 * 1024 * 1024)
    (h3 : jsTrim cst.inputMessage ≠ "") (h4 : cst.isLoading = false) :
    ((handleImageUpload st f p ConvertResponse.httpError sr).1.error =
        "Failed to generate 3D model. Please try again." ∧
     (handleImageUpload st f p ConvertResponse.httpError sr).1.generatedModel = none ∧
     (handleImageUpload st f p ConvertResponse.httpError sr).2 = [convertRequest f]) ∧
    ((handleImageUpload st f p ConvertResponse.fetchFailure sr).1.error =
        "Failed to generate 3D model. Please try again." ∧
     (handleImageUpload st f p ConvertResponse.fetchFailure sr).1.generatedModel = none ∧
     (handleImageUpload st f p ConvertResponse.fetchFailure sr).2 = [convertRequest f]) ∧
    ((handleSendMessage iN cst (ChatResponse.httpError d)).1.messages =
        cst.messages ++
          [{ role := Role.user, content := jsTrim cst.inputMessage },
           { role := Role.assistant,
             content := "Sorry, I encountered an error. Please try again." }] ∧
     (handleSendMessage iN cst (ChatResponse.httpError d)).2.length = 1) ∧
    ((handleSendMessage iN cst ChatResponse.fetchFailure).1.messages =
        cst.messages ++
          [{ role := Role.user, content := jsTrim cst.inputMessage },
           { role := Role.assistant,
             content := "Sorry, I encountered an error. Please try again." }] ∧
     (handleSendMessage iN cst ChatResponse.fetchFailure).2.length = 1) ∧
    ((handleExportReport iN sm md cst ExportResponse.httpError).2.2.2 =
        some "Failed to export report. Please try again." ∧
     (handleExportReport iN sm md cst ExportResponse.httpError).2.2.1 = none ∧
     (handleExportReport iN sm md cst ExportResponse.httpError).2.1 =
        [exportRequest iN sm cst.messages md]) ∧
    ((handleExportReport iN sm md cst ExportResponse.fetchFailure).2.2.2 =
        some "Failed to export report. Please try again." ∧
     (handleExportReport iN sm md cst ExportResponse.fetchFailure).2.2.1 = none ∧
     (handleExportReport iN sm md cst ExportResponse.fetchFailure).2.1 =
        [exportRequest iN sm cst.messages md]) := by
  refine ⟨?_, ?_, ?_, ?_, ⟨rfl, rfl, rfl⟩, ⟨rfl, rfl, rfl⟩⟩
  · rw [handleImageUpload_httpError st f p sr h1 h2]
    exact ⟨rfl, rfl, rfl⟩
  · rw [handleImageUpload_fetchFailure st f p sr h1 h2]
    exact ⟨rfl, rfl, rfl⟩
  · unfold handleSendMessage
    rw [if_neg (by simp [h3, h4])]
    exact ⟨by simp, rfl⟩
  · unfold handleSendMessage
    rw [if_neg (by simp [h3, h4])]
    exact ⟨by simp, rfl⟩

/-- Witness for C5 at concrete states and failing responses. -/
theorem generic_error_handling_witness :
    (handleImageUpload initialHomeState sampleFile "blob:preview"
        ConvertResponse.httpError SummaryResponse.failure).1.error =
      "Failed to generate 3D model. Please try again." ∧
    (handleImageUpload initialHomeState sampleFile "blob:preview"
        ConvertResponse.fetchFailure SummaryResponse.failure).1.generatedModel = none ∧
    (handleSendMessage "photo" { initialChatState with inputMessage := "What is this" }
        ChatResponse.fetchFailure).1.messages =
      [{ role := Role.user, content := "What is this" },
       { role := Role.assistant,
         content := "Sorry, I encountered an error. Please try again." }] ∧
    (handleExportReport "photo" "A short summary"
        { uniqueName := none, originalImagePath := none }
        initialChatState ExportResponse.httpError).2.2.2 =
      some "Failed to export report. Please try again." :=
  ⟨(generic_error_handling initialHomeState sampleFile "blob:preview"
      SummaryResponse.failure { initialChatState with inputMessage := "What is this" }
      "photo" "A short summary" "detail"
      { uniqueName := none, originalImagePath := none }
      (by decide) (by decide) (by decide) rfl).1.1,
   (generic_error_handling initialHomeState sampleFile "blob:preview"
      SummaryResponse.failure { initialChatState with inputMessage := "What is this" }
      "photo" "A short summary" "detail"
      { uniqueName := none, originalImagePath := none }
      (by decide) (by decide) (by decide) rfl).2.1.2.1,
   (generic_error_handling initialHomeState sampleFile "blob:preview"
      SummaryResponse.failure { initialChatState with inputMessage := "What is this" }
      "photo" "A short summary" "detail"
      { uniqueName := none, originalImagePath := none }
      (by decide) (by decide) (by decide) rfl).2.2.2.1.1,
   (generic_error_handling initialHomeState sampleFile "blob:preview"
      SummaryResponse.failure { initialChatState with inputMessage := "What is this" }
      "photo" "A short summary" "detail"
      { uniqueName := none, originalImagePath := none }
      (by decide) (by decide) (by decide) rfl).2.2.2.2.1.1⟩

/-- Invariant of the export lifecycle: the number of outstanding export
requests matches the `isExporting` flag, and every summary value sent so
far was non-empty when its request was fired. -/
lemma exportReachable_inv (s : ExportUIState) (h : ExportReachable s) :
    s.pending = (if s.isExporting then 1 else 0) ∧
    ∀ t ∈ s.sentSummaries, t ≠ "" := by
  induction h with
  | refl => exact ⟨rfl, by simp⟩
  | tail hab hbc ih =>
      rename_i b c
      obtain ⟨hp, hs⟩ := ih
      cases hbc with
      | click summaryText hdis =>
          have hd : b.isExporting = false ∧ (summaryText == "") = false := by
            simpa [exportButtonDisabled, Bool.or_eq_false_iff] using hdis
          refine ⟨?_, ?_⟩
          · simp only [hd.1, if_false] at hp
            simp [hp]
          · intro t ht
            rcases List.mem_cons.mp ht with rfl | ht
            · simpa using hd.2
            · exact hs t ht
      | settle hpend =>
          refine ⟨?_, hs⟩
          rcases hb : b.isExporting with _ | _
          · rw [hb, if_neg Bool.false_ne_true] at hp
            omega
          · rw [hb, if_pos rfl] at hp
            simp [hp]

/-- Claim C9: an export request can only start when the Export button is
enabled (non-empty summary, no export in flight), so at most one export
request is outstanding at a time and every body sent carries a non-empty
summary. -/
theorem export_guard_invariant (s : ExportUIState) (h : ExportReachable s) :
    s.pending ≤ 1 ∧
    (∀ t ∈ s.sentSummaries, t ≠ "") ∧
    (∀ (iN t : String) (msgs : List Message) (md : ImageMetadata),
        ("summary", JsonVal.str t) ∈ exportBodyFields iN t msgs md) := by
  obtain ⟨hp, hs⟩ := exportReachable_inv s h
  refine ⟨?_, hs, ?_⟩
  · rw [hp]
    split <;> omega
  · intro iN t msgs md
    simp [exportBodyFields]

/-- Witness for C9: the state right after one enabled click is reachable
and satisfies the invariant. -/
theorem export_guard_invariant_witness :
    ({ isExporting := true, pending := 1, sentSummaries := ["A short summary"] } :
        ExportUIState).pending ≤ 1 ∧
    (∀ t ∈ ({ isExporting := true, pending := 1, sentSummaries := ["A short summary"] } :
        ExportUIState).sentSummaries, t ≠ "") ∧
    (∀ (iN t : String) (msgs : List Message) (md : ImageMetadata),
        ("summary", JsonVal.str t) ∈ exportBodyFields iN t msgs md) :=
  export_guard_invariant
    { isExporting := true, pending := 1, sentSummaries := ["A short summary"] }
    (Relation.ReflTransGen.single
      (ExportStep.click { isExporting := false, pending := 0, sentSummaries := [] }
        "A short summary" (by decide)))

/-- `uploadProgress` after `n` ticks is `10 n` capped at 90. -/
lemma progressAfter_eq (n : Nat) : progressAfter n = min (10 * n) 90 := by
  induction n with
  | zero => rfl
  | succ n ih =>
      rw [progressAfter, ih, progressTick]
      split <;> omega

/-- Claim C10: during a convert request the simulated progress takes only
values in 0,10,...,90 (each tick adds 10, capped at 90), 100 appears only
after the response arrives, the final value of the trace is the 0 of the
`finally` block, no value exceeds 100, and the final state of the handler
has `uploadProgress = 0`. -/
theorem upload_progress_invariant :
    (∀ n : Nat, progressAfter n = min (10 * n) 90) ∧
    (∀ (ticks : Nat), ∀ v ∈ preResponseProgress ticks, v ≤ 90 ∧ v % 10 = 0) ∧
    (∀ ticks : Nat, 100 ∉ preResponseProgress ticks) ∧
    (∀ (ticks : Nat) (arrived : Bool), ∀ v ∈ uploadProgressTrace ticks arrived, v ≤ 100) ∧
    (∀ (ticks : Nat) (arrived : Bool),
        (uploadProgressTrace ticks arrived).getLast? = some 0) ∧
    (∀ (st : HomeState) (f : File) (p : String) (cr : ConvertResponse)
        (sr : SummaryResponse),
        strStartsWith f.type "image/" = true → f.size ≤ 10 * 1024 * 1024 →
        (handleImageUpload st f p cr sr).1.uploadProgress = 0) := by
  have hpre : ∀ (ticks : Nat), ∀ v ∈ preResponseProgress ticks, v ≤ 90 ∧ v % 10 = 0 := by
    intro ticks v hv
    simp only [preResponseProgress, List.mem_map, List.mem_range] at hv
    obtain ⟨k, -, rfl⟩ := hv
    rw [progressAfter_eq]
    omega
  refine ⟨progressAfter_eq, hpre, ?_, ?_, ?_, ?_⟩
  · intro ticks h
    have := (hpre ticks 100 h).1
    omega
  · intro ticks arrived v hv
    rcases List.mem_append.mp hv with h | h
    · rcases List.mem_append.mp h with h | h
      · exact le_trans (hpre ticks v h).1 (by omega)
      · cases arrived with
        | false => simp at h
        | true =>
            simp at h
            omega
    · simp at h
      omega
  · intro ticks arrived
    simp [uploadProgressTrace]
  · intro st f p cr sr h1 h2
    cases cr with
    | ok data =>
        cases sr with
        | ok s => rw [handleImageUpload_ok_okSummary st f p data s h1 h2]
        | failure => rw [handleImageUpload_ok_failSummary st f p data h1 h2]
    | httpError => rw [handleImageUpload_httpError st f p sr h1 h2]
    | fetchFailure => rw [handleImageUpload_fetchFailure st f p sr h1 h2]

/-- Witness for C10 at concrete tick counts. -/
theorem upload_progress_invariant_witness :
    progressAfter 3 = min (10 * 3) 90 ∧
    (30 ≤ 90 ∧ 30 % 10 = 0) ∧
    100 ∉ preResponseProgress 12 ∧
    90 ≤ 100 ∧
    (uploadProgressTrace 12 true).getLast? = some 0 ∧
    (handleImageUpload initialHomeState sampleFile "blob:preview"
        ConvertResponse.httpError SummaryResponse.failure).1.uploadProgress = 0 :=
  ⟨upload_progress_invariant.1 3,
   upload_progress_invariant.2.1 3 30 (by decide),
   upload_progress_invariant.2.2.1 12,
   upload_progress_invariant.2.2.2.1 12 true 90 (by decide),
   upload_progress_invariant.2.2.2.2.1 12 true,
   upload_progress_invariant.2.2.2.2.2 initialHomeState sampleFile "blob:preview"
     ConvertResponse.httpError SummaryResponse.failure (by decide) (by decide)⟩

end TwoDToThreeD
